import Mathlib

/-!
Verification of the trip-planner location/route state manager.

The development shallowly embeds the state manager (the MapProvider context in
the repository), the coordinate/distance utility (mapUtils), and the
local-storage fallback behaviour.  Remote calls (the supabase services and the
Mapbox directions fetch) are modelled by explicit outcome parameters, since the
manager only observes their results: a resolved value, a soft-failure value, or
a thrown exception.  JavaScript floating-point numbers are idealised as real
numbers; coordinate inputs are modelled as rationals (every float literal is a
rational) cast into the reals where arithmetic happens.
-/

namespace TripPlanner

/-- Longitude/latitude pair, source order [lng, lat].  The types module of the
repository is not in the source dump; the fields are modelled from the spec
data model and from how MapContext and mapUtils use them. -/
structure Coordinates where
  lng : Rat
  lat : Rat
deriving DecidableEq, Inhabited

/-- Location record of the data model: id, display name, coordinates and an
optional weak reference to a Category. -/
structure Location where
  id : String
  name : String
  coordinates : Coordinates
  categoryId : Option String := none
deriving DecidableEq, Inhabited

/-- Category record of the data model. -/
structure Category where
  id : String
  name : String
deriving DecidableEq, Inhabited

/-- Route geometry returned by the directions service, modelled as its ordered
sequence of coordinate pairs. -/
structure RouteGeometry where
  coordinates : List Coordinates
deriving DecidableEq, Inhabited

/-- Derived pairwise record: the two locations by value, the direct
great-circle distance, and the optional driving-route enrichment fields,
absent until an enrichment call succeeds. -/
structure DistanceInfo where
  «from» : Location
  «to» : Location
  directDistance : ℝ
  drivingDistance : Option ℝ := none
  drivingDuration : Option ℝ := none
  routeGeometry : Option RouteGeometry := none

noncomputable instance : Inhabited DistanceInfo :=
  ⟨{ «from» := default, «to» := default, directDistance := 0 }⟩

/-- Degrees to radians, as in the turf helpers used by the source. -/
noncomputable def degreesToRadians (d : ℝ) : ℝ :=
  d * Real.pi / 180

/-- Two-argument arctangent with the JavaScript Math.atan2 branch structure
(first argument is y, second is x). -/
noncomputable def atan2 (y x : ℝ) : ℝ :=
  if 0 < x then Real.arctan (y / x)
  else if x < 0 then
    (if 0 ≤ y then Real.arctan (y / x) + Real.pi else Real.arctan (y / x) - Real.pi)
  else if 0 < y then Real.pi / 2
  else if y < 0 then -(Real.pi / 2)
  else 0

/-- Kilometers per radian of arc: the turf earth radius 6371008.8 meters
divided by 1000. -/
noncomputable def kilometersPerRadian : ℝ := 6371.0088

/-- Direct great-circle distance in kilometers between two locations, the
haversine computation performed by turf distance on the two coordinate
pairs (source mapUtils calculateDirectDistance). -/
noncomputable def calculateDirectDistance (f t : Location) : ℝ :=
  let dLat := degreesToRadians ((t.coordinates.lat : ℝ) - (f.coordinates.lat : ℝ))
  let dLon := degreesToRadians ((t.coordinates.lng : ℝ) - (f.coordinates.lng : ℝ))
  let lat1 := degreesToRadians (f.coordinates.lat : ℝ)
  let lat2 := degreesToRadians (t.coordinates.lat : ℝ)
  let a := Real.sin (dLat / 2) ^ 2 + Real.sin (dLon / 2) ^ 2 * Real.cos lat1 * Real.cos lat2
  2 * atan2 (Real.sqrt a) (Real.sqrt (1 - a)) * kilometersPerRadian

/-- The DistanceInfo record pushed for one pair inside the pairwise loop. -/
noncomputable def mkDistanceInfo (f t : Location) : DistanceInfo :=
  { «from» := f, «to» := t, directDistance := calculateDirectDistance f t }

/-- All pairwise direct distances (source mapUtils calculateAllDirectDistances):
early return for fewer than two locations, then the double index loop with the
outer index i ascending over the whole sequence and the inner index j ascending
from i + 1, pushing one record per pair. -/
noncomputable def calculateAllDirectDistances (locations : List Location) : List DistanceInfo :=
  if locations.length < 2 then []
  else
    (List.range locations.length).flatMap fun i =>
      ((List.range locations.length).drop (i + 1)).map fun j =>
        mkDistanceInfo (locations.getD i default) (locations.getD j default)

/-- Outcome of an awaited remote call: the promise resolved with a value, or
it rejected (the await throws). The supabase service layer already maps query
errors to soft values (empty list, null, false), so those arrive here as
resolved values. -/
inductive RemoteResult (α : Type) where
  | ok (value : α)
  | thrown (msg : String)

/-- Awaiting a remote call inside a try block: a rejection becomes a thrown
exception in the Except translation. -/
def RemoteResult.toExcept {α : Type} : RemoteResult α → Except String α
  | .ok v => .ok v
  | .thrown m => .error m

/-- Translation of a JavaScript try/catch block. -/
def tryE {α : Type} (body : Except String α) (handler : String → Except String α) :
    Except String α :=
  match body with
  | .ok a => .ok a
  | .error e => handler e

/-- Content of one localStorage key: absent, present but not parseable as
JSON, or a parseable serialized list. -/
inductive StoredValue (α : Type) where
  | missing
  | malformed
  | stored (items : List α)
deriving DecidableEq

/-- In-memory state of the MapProvider: the four useState cells. -/
structure TripState where
  locations : List Location
  categories : List Category
  distances : List DistanceInfo
  isLoading : Bool

/-- Manager state together with the two localStorage snapshot keys
(baliTripLocations and baliTripCategories). -/
structure World where
  state : TripState
  locationStore : StoredValue Location
  categoryStore : StoredValue Category

/-- State of the four cells on first render. -/
def initialState : TripState :=
  { locations := [], categories := [], distances := [], isLoading := false }

/-- The useEffect keyed on [locations]: overwrite the locations snapshot with
the full current list, and recompute direct distances when at least two
locations exist, otherwise set the distances list empty.  React runs this
effect after every commit in which the locations array was set (and once on
mount), so the model applies it whenever locations are set. -/
noncomputable def runLocationsEffect (w : World) : World :=
  { w with
    locationStore := .stored w.state.locations
    state := { w.state with
      distances :=
        if 2 ≤ w.state.locations.length then
          calculateAllDirectDistances w.state.locations
        else [] } }

/-- The useEffect keyed on [categories]: overwrite the categories snapshot. -/
def runCategoriesEffect (w : World) : World :=
  { w with categoryStore := .stored w.state.categories }

/-- setLocations followed by the [locations] effect. -/
noncomputable def setLocations (w : World) (locs : List Location) : World :=
  runLocationsEffect { w with state := { w.state with locations := locs } }

/-- setCategories followed by the [categories] effect. -/
def setCategories (w : World) (cats : List Category) : World :=
  runCategoriesEffect { w with state := { w.state with categories := cats } }

/-- setIsLoading. -/
def setLoadingFlag (w : World) (b : Bool) : World :=
  { w with state := { w.state with isLoading := b } }

/-- JavaScript truthiness of an optional string: undefined and the empty
string are falsy, every other string is truthy. -/
def truthyOpt : Option String → Bool
  | none => false
  | some s => !s.isEmpty

/-- The locally constructed Location used on the fallback path of addLocation:
a generated id (the generateId argument stands for the untracked random value
of mapUtils generateId), and the categoryId spread only when truthy, exactly
as the source object literal does. -/
def localLocation (genId name : String) (coordinates : Coordinates)
    (categoryId : Option String) : Location :=
  { id := genId
    name := name
    coordinates := coordinates
    categoryId := if truthyOpt categoryId then categoryId else none }

/-- addLocation: set the busy flag, try the remote create; on a returned
record append it, on a null result or a thrown error append the locally
constructed record; finally clear the busy flag.  The remote outcome carries
the server-returned record when the create succeeded. -/
noncomputable def addLocation (w : World) (name : String) (coordinates : Coordinates)
    (categoryId : Option String) (remote : RemoteResult (Option Location))
    (genId : String) : Except String World :=
  let w1 := setLoadingFlag w true
  let fallback : World :=
    setLocations w1 (w1.state.locations ++ [localLocation genId name coordinates categoryId])
  let attempt : Except String World := do
    let savedLocation ← remote.toExcept
    match savedLocation with
    | some loc => pure (setLocations w1 (w1.state.locations ++ [loc]))
    | none => pure fallback
  (tryE attempt fun _err => pure fallback).map fun w2 => setLoadingFlag w2 false

/-- removeLocation: try the remote delete, swallow any error, and in the
finally block always filter the entry out of the local list and clear the
busy flag. -/
noncomputable def removeLocation (w : World) (id : String) (remote : RemoteResult Bool) :
    Except String World :=
  let w1 := setLoadingFlag w true
  (tryE (do let _ ← remote.toExcept; pure w1) fun _err => pure w1).map fun w2 =>
    setLoadingFlag (setLocations w2 (w2.state.locations.filter fun l => l.id != id)) false

/-- Partial Location value passed to updateLocation: each field is present or
absent; a present field overwrites on the shallow merge. The categoryId field
distinguishes being absent from being present with the undefined value. -/
structure LocationUpdate where
  id : Option String := none
  name : Option String := none
  coordinates : Option Coordinates := none
  categoryId : Option (Option String) := none
deriving DecidableEq

/-- Shallow merge of a partial update over a location, the object spread of
the source. -/
def applyUpdate (l : Location) (u : LocationUpdate) : Location :=
  { id := u.id.getD l.id
    name := u.name.getD l.name
    coordinates := u.coordinates.getD l.coordinates
    categoryId := u.categoryId.getD l.categoryId }

/-- updateLocation: try the remote update, swallow any error, and in the
finally block always merge the update into the matching entry. -/
noncomputable def updateLocation (w : World) (id : String) (updates : LocationUpdate)
    (remote : RemoteResult Bool) : Except String World :=
  let w1 := setLoadingFlag w true
  (tryE (do let _ ← remote.toExcept; pure w1) fun _err => pure w1).map fun w2 =>
    setLoadingFlag
      (setLocations w2 (w2.state.locations.map fun l =>
        if l.id == id then applyUpdate l updates else l)) false

/-- clearLocations: try the concurrent remote deletes, swallow any error, and
in the finally block always empty the local list. -/
noncomputable def clearLocations (w : World) (remote : RemoteResult (List Bool)) :
    Except String World :=
  let w1 := setLoadingFlag w true
  (tryE (do let _ ← remote.toExcept; pure w1) fun _err => pure w1).map fun w2 =>
    setLoadingFlag (setLocations w2 []) false

/-- The locally constructed Category used on the fallback path of
addCategory. -/
def localCategory (genId name : String) : Category :=
  { id := genId, name := name }

/-- addCategory: same best-effort pattern as addLocation. -/
noncomputable def addCategory (w : World) (name : String)
    (remote : RemoteResult (Option Category)) (genId : String) : Except String World :=
  let w1 := setLoadingFlag w true
  let fallback : World := setCategories w1 (w1.state.categories ++ [localCategory genId name])
  let attempt : Except String World := do
    let savedCategory ← remote.toExcept
    match savedCategory with
    | some cat => pure (setCategories w1 (w1.state.categories ++ [cat]))
    | none => pure fallback
  (tryE attempt fun _err => pure fallback).map fun w2 => setLoadingFlag w2 false

/-- removeCategory: try the remote delete, swallow any error, and in the
finally block remove the category from the list and clear categoryId on every
location that referenced it, in the same update. -/
noncomputable def removeCategory (w : World) (id : String) (remote : RemoteResult Bool) :
    Except String World :=
  let w1 := setLoadingFlag w true
  (tryE (do let _ ← remote.toExcept; pure w1) fun _err => pure w1).map fun w2 =>
    let w3 := setCategories w2 (w2.state.categories.filter fun c => c.id != id)
    let w4 := setLocations w3 (w3.state.locations.map fun l =>
      if l.categoryId == some id then { l with categoryId := none } else l)
    setLoadingFlag w4 false

/-- updateCategory: try the remote update, swallow any error, and always
rename the matching entry locally. -/
noncomputable def updateCategory (w : World) (id name : String) (remote : RemoteResult Bool) :
    Except String World :=
  let w1 := setLoadingFlag w true
  (tryE (do let _ ← remote.toExcept; pure w1) fun _err => pure w1).map fun w2 =>
    setLoadingFlag
      (setCategories w2 (w2.state.categories.map fun c =>
        if c.id == id then { c with name := name } else c)) false

/-- clearCategories: try the concurrent remote deletes, swallow any error, and
in the finally block empty the category list and clear categoryId on every
location. -/
noncomputable def clearCategories (w : World) (remote : RemoteResult (List Bool)) :
    Except String World :=
  let w1 := setLoadingFlag w true
  (tryE (do let _ ← remote.toExcept; pure w1) fun _err => pure w1).map fun w2 =>
    let w3 := setCategories w2 []
    let w4 := setLocations w3 (w3.state.locations.map fun l => { l with categoryId := none })
    setLoadingFlag w4 false

/-- Outcome of one directions fetch for one pair: the fetch rejected, the
response was not ok (the source then throws and catches its own error), the
response carried no routes, or a route with distance in meters, duration in
seconds, and a geometry. -/
inductive RouteFetchResult where
  | thrown (msg : String)
  | notOk (statusText : String)
  | noRoutes
  | route (distanceMeters : ℝ) (duration : ℝ) (geometry : RouteGeometry)

/-- Per-pair enrichment: on a returned route, spread the driving fields over
the record (meters converted to kilometers); on every failure outcome the
catch (or the missing-routes fall-through) returns the record unchanged. -/
noncomputable def enrichPair (d : DistanceInfo) (r : RouteFetchResult) : DistanceInfo :=
  match r with
  | .route distanceMeters duration geometry =>
      { d with
        drivingDistance := some (distanceMeters / 1000)
        drivingDuration := some duration
        routeGeometry := some geometry }
  | _ => d

/-- Promise.all over the per-pair enrichment calls: positions are preserved,
the call for position i observes outcome oc i. -/
noncomputable def enrichAll (oc : Nat → RouteFetchResult) : Nat → List DistanceInfo → List DistanceInfo
  | _, [] => []
  | i, d :: rest => enrichPair d (oc i) :: enrichAll oc (i + 1) rest

/-- fetchDrivingRoutes: no-op below two locations; with two truthy ids that
both resolve, build the single-pair record; with two truthy ids where either
lookup fails, log and return; otherwise build all pairwise records.  Then
enrich every record and replace the distances state wholesale with the
settled list. -/
noncomputable def fetchDrivingRoutes (w : World) (fromId toId : Option String)
    (oc : Nat → RouteFetchResult) : Except String World :=
  if w.state.locations.length < 2 then pure w
  else if truthyOpt fromId && truthyOpt toId then
    let fromLocation := w.state.locations.find? fun l => some l.id == fromId
    let toLocation := w.state.locations.find? fun l => some l.id == toId
    match fromLocation, toLocation with
    | some f, some t =>
        let distanceInfos := [mkDistanceInfo f t]
        pure { w with state := { w.state with distances := enrichAll oc 0 distanceInfos } }
    | _, _ => pure w
  else
    let distanceInfos := calculateAllDirectDistances w.state.locations
    pure { w with state := { w.state with distances := enrichAll oc 0 distanceInfos } }

/-- Reading one snapshot key at the fallback point: no value means the guard
skips the restore; a malformed value makes JSON.parse throw; a stored list
parses back to itself. -/
def parseStored {α : Type} : StoredValue α → Option (Except String (List α))
  | .missing => none
  | .malformed => some (.error "parse failure")
  | .stored xs => some (.ok xs)

/-- Continuation of the loadLocations effect after its awaited remote load
settles: on success set the list; on a thrown error read the snapshot and,
when present and parseable, set the parsed list, swallowing a parse error;
finally clear the busy flag. -/
noncomputable def resumeLoadLocations (w : World) (remote : RemoteResult (List Location)) :
    Except String World :=
  (tryE (do let data ← remote.toExcept; pure (setLocations w data)) fun _err =>
    match parseStored w.locationStore with
    | none => pure w
    | some p => tryE (p.map fun xs => setLocations w xs) fun _e => pure w).map
    fun w2 => setLoadingFlag w2 false

/-- Continuation of the loadCategories effect, same shape as the locations
load. -/
def resumeLoadCategories (w : World) (remote : RemoteResult (List Category)) :
    Except String World :=
  (tryE (do let data ← remote.toExcept; pure (setCategories w data)) fun _err =>
    match parseStored w.categoryStore with
    | none => pure w
    | some p => tryE (p.map fun xs => setCategories w xs) fun _e => pure w).map
    fun w2 => setLoadingFlag w2 false

/-- Mount sequence of the provider.  The stores of w0 are whatever a previous
session left in localStorage; the state cells start at their initial values.
React flushes the mount effects in declaration order: the two load effects
run synchronously up to their first await (setting the busy flag), then the
[locations] effect and the [categories] effect run, and only after that
synchronous flush can the awaited promises resume their continuations. -/
noncomputable def mount (w0 : World) (locRemote : RemoteResult (List Location))
    (catRemote : RemoteResult (List Category)) : Except String World := do
  let w := { w0 with state := initialState }
  let w := setLoadingFlag w true
  let w := setLoadingFlag w true
  let w := runLocationsEffect w
  let w := runCategoriesEffect w
  let w ← resumeLoadLocations w locRemote
  let w ← resumeLoadCategories w catRemote
  pure w

/-- World before any session data exists: empty state, both snapshot keys
absent. -/
def initWorld : World :=
  { state := initialState, locationStore := .missing, categoryStore := .missing }

/-- The entry addLocation appends, by remote outcome: the server-returned
record on a successful create, the locally constructed record on a null
result or a thrown error. -/
def appendedEntry (remote : RemoteResult (Option Location)) (genId name : String)
    (coordinates : Coordinates) (categoryId : Option String) : Location :=
  match remote with
  | .ok (some savedLocation) => savedLocation
  | _ => localLocation genId name coordinates categoryId

/-- A DistanceInfo still at its direct-distance-only state: all three driving
fields absent. -/
def directOnly (d : DistanceInfo) : Prop :=
  d.drivingDistance = none ∧ d.drivingDuration = none ∧ d.routeGeometry = none

/-- Every enrichment outcome other than a returned route. -/
def routeFailed : RouteFetchResult → Prop
  | .route _ _ _ => False
  | _ => True

/-- The two facts the [locations] effect establishes: the snapshot holds the
full current list, and the distances list is the recomputed pairwise list
(empty below two locations). -/
def snapshotFresh (w : World) : Prop :=
  w.locationStore = .stored w.state.locations ∧
  w.state.distances =
    (if 2 ≤ w.state.locations.length then calculateAllDirectDistances w.state.locations else [])

/-- Spec-side pair order: every element paired with each later element, outer
position ascending, inner position ascending; for [L1, L2, L3] this is
(L1,L2), (L1,L3), (L2,L3). -/
def pairsInOrder : List Location → List (Location × Location)
  | [] => []
  | x :: xs => (xs.map fun y => (x, y)) ++ pairsInOrder xs

/-- Concrete location with id a, used by witnesses. -/
def locA : Location := { id := "a", name := "A", coordinates := ⟨115, -8⟩ }

/-- Concrete location with id b, used by witnesses. -/
def locB : Location := { id := "b", name := "B", coordinates := ⟨116, -9⟩ }

/-- Concrete location with id c, used by witnesses. -/
def locC : Location := { id := "c", name := "C", coordinates := ⟨117, -7⟩ }

/-- Location created by the C2 counterexample run, holding a categoryId that
matches no category. -/
def ghostLoc : Location :=
  { id := "loc1", name := "Spot", coordinates := ⟨0, 0⟩, categoryId := some "ghost" }

/-- World reached from initWorld by one addLocation call that passed an
unknown categoryId while the remote create soft-failed. -/
def danglingWorld : World :=
  { state := { locations := [ghostLoc], categories := [], distances := [], isLoading := false }
    locationStore := .stored [ghostLoc]
    categoryStore := .missing }

/-- Three-location world for the batch-enrichment witness. -/
def batchWorld : World :=
  { state := { locations := [locA, locB, locC], categories := [], distances := [], isLoading := false }
    locationStore := .missing
    categoryStore := .missing }

/-- Outcome family for the batch-enrichment witness: the first pair call
rejects, every other call returns a route. -/
noncomputable def batchOutcomes : Nat → RouteFetchResult :=
  fun i => if i = 0 then .thrown "network unreachable" else .route 5000 60 ⟨[]⟩

/-- Outcome family in which every enrichment call rejects. -/
def allFailOutcomes : Nat → RouteFetchResult :=
  fun _ => .thrown "network unreachable"

/-- Outcome family in which every enrichment response carries no routes. -/
def noRoutesOutcomes : Nat → RouteFetchResult :=
  fun _ => .noRoutes

/-- Two-location world for the invalid-pair witness. -/
def pairWorld : World :=
  { state := { locations := [locA, locB], categories := [], distances := [], isLoading := false }
    locationStore := .missing
    categoryStore := .missing }

/-- Two-location world with previously enriched distances, used by the
empty-string-id counterexample. -/
def enrichedWorld : World :=
  { state :=
      { locations := [locA, locB]
        categories := []
        distances := [{ «from» := locA, «to» := locB, directDistance := 0,
                        drivingDistance := some 1, drivingDuration := some 2,
                        routeGeometry := some ⟨[]⟩ }]
        isLoading := false }
    locationStore := .missing
    categoryStore := .missing }

/-- What fetchDrivingRoutes with an empty-string fromId actually produces on
enrichedWorld when every enrichment call fails: the all-pairs list, with the
previous enrichment discarded. -/
noncomputable def enrichedWorldAfter : World :=
  { enrichedWorld with
    state := { enrichedWorld.state with distances := [mkDistanceInfo locA locB] } }

/-- One-location world for the unknown-id witness. -/
def singleWorld : World :=
  { state := { locations := [locA], categories := [], distances := [], isLoading := false }
    locationStore := .missing
    categoryStore := .missing }

/-! Helper lemmas. -/

theorem map_id_of_eq {α : Type} {l : List α} {f : α → α} (h : ∀ a ∈ l, f a = a) :
    l.map f = l := by
  induction l with
  | nil => rfl
  | cons a t ih =>
    rw [List.map_cons, h a (List.mem_cons_self a t),
      ih fun b hb => h b (List.mem_cons_of_mem a hb)]

theorem atan2_nonneg {y x : ℝ} (hy : 0 ≤ y) (hx : 0 ≤ x) : 0 ≤ atan2 y x := by
  unfold atan2
  split_ifs with h1 h2 h3 h4
  · rw [show (0 : ℝ) = Real.arctan 0 from Real.arctan_zero.symm]
    exact Real.arctan_strictMono.monotone (div_nonneg hy (le_of_lt h1))
  all_goals first | exact le_refl 0 | linarith [Real.pi_pos]

theorem map_eq_range_getD {α β : Type} (g : α → β) (d : α) :
    ∀ l : List α, l.map g = (List.range l.length).map fun j => g (l.getD j d)
  | [] => rfl
  | a :: t => by
    rw [List.length_cons, List.range_succ_eq_map, List.map_cons, List.map_cons, List.map_map]
    exact congrArg (g a :: ·) (map_eq_range_getD g d t)

theorem flatMap_pairs_eq_pairsInOrder :
    ∀ locs : List Location,
      (List.range locs.length).flatMap (fun i =>
        ((List.range locs.length).drop (i + 1)).map fun j =>
          (locs.getD i default, locs.getD j default)) = pairsInOrder locs
  | [] => rfl
  | x :: xs => by
    have ih := flatMap_pairs_eq_pairsInOrder xs
    simp only [List.length_cons, List.range_succ_eq_map, List.flatMap_cons, List.flatMap_map,
      List.drop_succ_cons, List.drop_zero, List.map_map, Function.comp_def, Nat.succ_eq_add_one,
      List.getD_cons_succ, List.getD_cons_zero, ← List.map_drop, pairsInOrder]
    exact congrArg₂ (· ++ ·) (map_eq_range_getD (fun y => (x, y)) default xs).symm ih

theorem pairsInOrder_length_twice :
    ∀ locs : List Location, (pairsInOrder locs).length * 2 = locs.length * (locs.length - 1)
  | [] => rfl
  | x :: xs => by
    have ih := pairsInOrder_length_twice xs
    simp only [pairsInOrder, List.length_append, List.length_map, List.length_cons,
      Nat.add_sub_cancel]
    rw [show (xs.length + (pairsInOrder xs).length) * 2
        = xs.length * 2 + (pairsInOrder xs).length * 2 from by ring, ih]
    cases xs.length with
    | zero => rfl
    | succ m => simp only [Nat.succ_sub_one]; ring

theorem calc_map_pair_eq_pairsInOrder (locs : List Location) :
    (calculateAllDirectDistances locs).map (fun d => (d.«from», d.«to»)) = pairsInOrder locs := by
  unfold calculateAllDirectDistances
  split
  · rename_i h
    match locs, h with
    | [], _ => rfl
    | [x], _ => rfl
  · rw [List.map_flatMap]
    simp only [List.map_map]
    exact flatMap_pairs_eq_pairsInOrder locs

theorem calc_mem_directOnly {locs : List Location} {d : DistanceInfo}
    (hd : d ∈ calculateAllDirectDistances locs) : directOnly d := by
  unfold calculateAllDirectDistances at hd
  split at hd
  · exact absurd hd (List.not_mem_nil d)
  · rcases List.mem_flatMap.mp hd with ⟨i, _, hmem⟩
    rcases List.mem_map.mp hmem with ⟨j, _, rfl⟩
    exact ⟨rfl, rfl, rfl⟩

theorem enrichAll_length (oc : Nat → RouteFetchResult) :
    ∀ (i : Nat) (ds : List DistanceInfo), (enrichAll oc i ds).length = ds.length
  | _, [] => rfl
  | i, d :: rest => by
    simp only [enrichAll, List.length_cons, enrichAll_length oc (i + 1) rest]

theorem enrichAll_getD (oc : Nat → RouteFetchResult) :
    ∀ (i k : Nat) (ds : List DistanceInfo), k < ds.length →
      (enrichAll oc i ds).getD k default = enrichPair (ds.getD k default) (oc (i + k))
  | _, 0, _ :: _, _ => by simp [enrichAll]
  | i, k + 1, _ :: rest, h => by
    simp only [enrichAll, List.getD_cons_succ]
    rw [enrichAll_getD oc (i + 1) k rest (by simpa using h)]
    rw [show i + 1 + k = i + (k + 1) from by omega]

theorem enrichPair_failed {d : DistanceInfo} {r : RouteFetchResult} (h : routeFailed r) :
    enrichPair d r = d := by
  cases r with
  | thrown m => rfl
  | notOk st => rfl
  | noRoutes => rfl
  | route a b c => exact h.elim

/-- Claim C4: for every sequence of N locations, calculateAllDirectDistances
returns exactly N*(N-1)/2 entries, whose from/to pairs are precisely the
index pairs (i, j) with i < j enumerated with the outer position ascending
and the inner position ascending (so [L1, L2, L3] yields (L1,L2), (L1,L3),
(L2,L3)), and it returns the empty sequence when N < 2; the output is a pure
function of the input sequence, so the order depends only on the input
order. -/
theorem claim_C4 :
    ∀ locs : List Location,
      (calculateAllDirectDistances locs).length = locs.length * (locs.length - 1) / 2 ∧
      (calculateAllDirectDistances locs).map (fun d => (d.«from», d.«to»)) = pairsInOrder locs ∧
      (locs.length < 2 → calculateAllDirectDistances locs = []) := by
  intro locs
  refine ⟨?_, calc_map_pair_eq_pairsInOrder locs, ?_⟩
  · have hlen : (calculateAllDirectDistances locs).length = (pairsInOrder locs).length := by
      rw [← calc_map_pair_eq_pairsInOrder locs, List.length_map]
    rw [hlen, ← pairsInOrder_length_twice locs, Nat.mul_div_cancel _ (by norm_num)]
  · intro h
    unfold calculateAllDirectDistances
    rw [if_pos h]

/-- Claim C8: calculateDirectDistance (the haversine great-circle distance in
kilometers, floats idealised as reals) is symmetric in its two arguments,
returns zero on identical locations, and is nonnegative on all inputs. -/
theorem claim_C8 :
    ∀ a b : Location,
      calculateDirectDistance a b = calculateDirectDistance b a ∧
      calculateDirectDistance a a = 0 ∧
      0 ≤ calculateDirectDistance a b := by
  intro a b
  have key : ∀ u v z1 z2 : ℝ,
      Real.sin ((u - v) * Real.pi / 180 / 2) ^ 2 +
          Real.sin ((z1 - z2) * Real.pi / 180 / 2) ^ 2 * Real.cos (v * Real.pi / 180) *
            Real.cos (u * Real.pi / 180) =
        Real.sin ((v - u) * Real.pi / 180 / 2) ^ 2 +
          Real.sin ((z2 - z1) * Real.pi / 180 / 2) ^ 2 * Real.cos (u * Real.pi / 180) *
            Real.cos (v * Real.pi / 180) := by
    intro u v z1 z2
    rw [show (u - v) * Real.pi / 180 / 2 = -((v - u) * Real.pi / 180 / 2) from by ring,
      show (z1 - z2) * Real.pi / 180 / 2 = -((z2 - z1) * Real.pi / 180 / 2) from by ring,
      Real.sin_neg, Real.sin_neg, neg_sq, neg_sq]
    ring
  have hzero : atan2 0 1 = 0 := by
    unfold atan2
    rw [if_pos (by norm_num : (0 : ℝ) < 1), zero_div, Real.arctan_zero]
  refine ⟨?_, ?_, ?_⟩
  · simp only [calculateDirectDistance, degreesToRadians]
    rw [key]
  · simp only [calculateDirectDistance, degreesToRadians, sub_self, zero_mul, zero_div,
      Real.sin_zero, pow_two, mul_zero, zero_mul, add_zero, zero_add, Real.sqrt_zero, sub_zero,
      Real.sqrt_one, hzero]
  · simp only [calculateDirectDistance, degreesToRadians]
    refine mul_nonneg (mul_nonneg (by norm_num) ?_) ?_
    · exact atan2_nonneg (Real.sqrt_nonneg _) (Real.sqrt_nonneg _)
    · unfold kilometersPerRadian
      norm_num

theorem snapshotFresh_after (w : World) (ls : List Location) :
    snapshotFresh (setLoadingFlag (setLocations w ls) false) := ⟨rfl, rfl⟩

/-- Claim C1, code-bug evaluation: when the remote locations load throws at
startup, the mounted manager's list is empty and the snapshot key holds the
empty list, regardless of what the previous session had saved there.  The
[locations] effect runs during the synchronous mount flush, before the
suspended load can resume, and overwrites the snapshot with the initial
empty list; the catch then restores that empty list, so the best-effort
restore can never reproduce the previous session's data, contrary to the
claim (and to the restart scenario in the spec). -/
theorem claim_C1 :
    ∀ (w0 : World) (msg : String) (catRemote : RemoteResult (List Category)),
      ∃ w', mount w0 (.thrown msg) catRemote = .ok w' ∧
        w'.state.locations = [] ∧ w'.locationStore = .stored [] := by
  intro w0 msg catRemote
  cases catRemote <;> exact ⟨_, rfl, rfl, rfl⟩

/-- Claim C3: addLocation always resolves and always appends exactly one
entry to the location list: the server-returned record when the remote
create returns one, and a locally constructed record carrying the generated
id when the create returns null or throws. -/
theorem claim_C3 :
    ∀ (w : World) (name : String) (coordinates : Coordinates) (categoryId : Option String)
      (remote : RemoteResult (Option Location)) (genId : String),
      ∃ w', addLocation w name coordinates categoryId remote genId = .ok w' ∧
        w'.state.locations =
          w.state.locations ++ [appendedEntry remote genId name coordinates categoryId] ∧
        w'.state.locations.length = w.state.locations.length + 1 := by
  intro w name coordinates categoryId remote genId
  have base : ∀ w' : World,
      w'.state.locations =
        w.state.locations ++ [appendedEntry remote genId name coordinates categoryId] →
      w'.state.locations.length = w.state.locations.length + 1 := by
    intro w' h
    rw [h]
    simp
  cases remote with
  | ok v =>
    cases v with
    | some loc => exact ⟨_, rfl, rfl, base _ rfl⟩
    | none => exact ⟨_, rfl, rfl, base _ rfl⟩
  | thrown m => exact ⟨_, rfl, rfl, base _ rfl⟩

/-- Claim C5: every location-list mutation, on the remote-success path and on
every fallback path, leaves the snapshot key holding the full current list
and the distances list equal to the synchronous recomputation over the new
list (empty below two locations).  This covers the location operations and
the two category operations that also touch locations. -/
theorem claim_C5 :
    ∀ (w : World) (name : String) (coordinates : Coordinates) (categoryId : Option String)
      (remoteAdd : RemoteResult (Option Location)) (genId id : String)
      (remoteBool : RemoteResult Bool) (updates : LocationUpdate)
      (remoteBatch : RemoteResult (List Bool)),
      (∃ w1, addLocation w name coordinates categoryId remoteAdd genId = .ok w1 ∧
        snapshotFresh w1) ∧
      (∃ w2, removeLocation w id remoteBool = .ok w2 ∧ snapshotFresh w2) ∧
      (∃ w3, updateLocation w id updates remoteBool = .ok w3 ∧ snapshotFresh w3) ∧
      (∃ w4, clearLocations w remoteBatch = .ok w4 ∧ snapshotFresh w4) ∧
      (∃ w5, removeCategory w id remoteBool = .ok w5 ∧ snapshotFresh w5) ∧
      (∃ w6, clearCategories w remoteBatch = .ok w6 ∧ snapshotFresh w6) := by
  intro w name coordinates categoryId remoteAdd genId id remoteBool updates remoteBatch
  refine ⟨?_, ?_, ?_, ?_, ?_, ?_⟩
  · cases remoteAdd with
    | ok v =>
      cases v with
      | some loc => exact ⟨_, rfl, snapshotFresh_after _ _⟩
      | none => exact ⟨_, rfl, snapshotFresh_after _ _⟩
    | thrown m => exact ⟨_, rfl, snapshotFresh_after _ _⟩
  · cases remoteBool <;> exact ⟨_, rfl, snapshotFresh_after _ _⟩
  · cases remoteBool <;> exact ⟨_, rfl, snapshotFresh_after _ _⟩
  · cases remoteBatch <;> exact ⟨_, rfl, snapshotFresh_after _ _⟩
  · cases remoteBool <;> exact ⟨_, rfl, snapshotFresh_after _ _⟩
  · cases remoteBatch <;> exact ⟨_, rfl, snapshotFresh_after _ _⟩

/-- Claim C9: no operation of the manager propagates an exception: for every
remote outcome, including thrown errors, every operation (and the mount
initialization) resolves with a state, never with an error. -/
theorem claim_C9 :
    ∀ (w w0 : World) (name catName : String) (coordinates : Coordinates)
      (categoryId fromId toId : Option String)
      (remoteAdd : RemoteResult (Option Location)) (remoteAddCat : RemoteResult (Option Category))
      (genId id : String) (remoteBool : RemoteResult Bool) (updates : LocationUpdate)
      (remoteBatch : RemoteResult (List Bool)) (oc : Nat → RouteFetchResult)
      (locRemote : RemoteResult (List Location)) (catRemote : RemoteResult (List Category)),
      (∃ r, mount w0 locRemote catRemote = .ok r) ∧
      (∃ r, addLocation w name coordinates categoryId remoteAdd genId = .ok r) ∧
      (∃ r, removeLocation w id remoteBool = .ok r) ∧
      (∃ r, updateLocation w id updates remoteBool = .ok r) ∧
      (∃ r, clearLocations w remoteBatch = .ok r) ∧
      (∃ r, addCategory w catName remoteAddCat genId = .ok r) ∧
      (∃ r, removeCategory w id remoteBool = .ok r) ∧
      (∃ r, updateCategory w id catName remoteBool = .ok r) ∧
      (∃ r, clearCategories w remoteBatch = .ok r) ∧
      (∃ r, fetchDrivingRoutes w fromId toId oc = .ok r) := by
  intro w w0 name catName coordinates categoryId fromId toId remoteAdd remoteAddCat genId id
    remoteBool updates remoteBatch oc locRemote catRemote
  refine ⟨?_, ?_, ?_, ?_, ?_, ?_, ?_, ?_, ?_, ?_⟩
  · cases locRemote <;> cases catRemote <;> exact ⟨_, rfl⟩
  · cases remoteAdd with
    | ok v => cases v <;> exact ⟨_, rfl⟩
    | thrown m => exact ⟨_, rfl⟩
  · cases remoteBool <;> exact ⟨_, rfl⟩
  · cases remoteBool <;> exact ⟨_, rfl⟩
  · cases remoteBatch <;> exact ⟨_, rfl⟩
  · cases remoteAddCat with
    | ok v => cases v <;> exact ⟨_, rfl⟩
    | thrown m => exact ⟨_, rfl⟩
  · cases remoteBool <;> exact ⟨_, rfl⟩
  · cases remoteBool <;> exact ⟨_, rfl⟩
  · cases remoteBatch <;> exact ⟨_, rfl⟩
  · unfold fetchDrivingRoutes
    split
    · exact ⟨_, rfl⟩
    · split
      · cases hf : List.find? (fun l => some l.id == fromId) w.state.locations <;>
          cases ht : List.find? (fun l => some l.id == toId) w.state.locations <;>
          exact ⟨_, rfl⟩
      · exact ⟨_, rfl⟩

/-- Claim C2 (amended): removeCategory removes the category from the list and
clears categoryId on every location that referenced it in the same state
update, and clearCategories empties the category list and clears categoryId
on every location, for every remote outcome including failures; after either
operation no location references the removed id.  The blanket
reachable-state invariant of the original claim fails, because addLocation
and updateLocation never validate categoryId: see the counterexample. -/
theorem claim_C2 :
    ∀ (w : World) (id : String) (remote : RemoteResult Bool)
      (batch : RemoteResult (List Bool)),
      (∃ w', removeCategory w id remote = .ok w' ∧
        w'.state.categories = w.state.categories.filter (fun c => c.id != id) ∧
        w'.state.locations = w.state.locations.map (fun l =>
          if l.categoryId == some id then { l with categoryId := none } else l) ∧
        ∀ l ∈ w'.state.locations, l.categoryId ≠ some id) ∧
      (∃ w2, clearCategories w batch = .ok w2 ∧
        w2.state.categories = [] ∧
        w2.state.locations = w.state.locations.map (fun l => { l with categoryId := none }) ∧
        ∀ l ∈ w2.state.locations, l.categoryId = none) := by
  intro w id remote batch
  have hclear : ∀ l ∈ w.state.locations.map (fun l =>
      if l.categoryId == some id then { l with categoryId := none } else l),
      l.categoryId ≠ some id := by
    intro l hl
    rcases List.mem_map.mp hl with ⟨x, _, rfl⟩
    cases hx : x.categoryId == some id with
    | true => simp [hx]
    | false => simpa [hx] using (beq_eq_false_iff_ne (a := x.categoryId)).mp hx
  have hnone : ∀ l ∈ w.state.locations.map (fun l => { l with categoryId := none }),
      l.categoryId = (none : Option String) := by
    intro l hl
    rcases List.mem_map.mp hl with ⟨x, _, rfl⟩
    rfl
  constructor
  · cases remote <;> exact ⟨_, rfl, rfl, rfl, hclear⟩
  · cases batch <;> exact ⟨_, rfl, rfl, rfl, hnone⟩

/-- Claim C2 counterexample: from the empty initial world, one addLocation
call passing a categoryId that names no category (remote create
soft-failing) reaches a state whose only location references the absent
category, so the reachable-state weak-reference invariant is false as
stated. -/
theorem claim_C2_counterexample :
    addLocation initWorld "Spot" ⟨0, 0⟩ (some "ghost") (RemoteResult.ok none) "loc1" =
      .ok danglingWorld ∧
    danglingWorld.state.locations.map Location.categoryId = [some "ghost"] ∧
    danglingWorld.state.categories = [] :=
  ⟨rfl, rfl, rfl⟩

/-- Claim C10: with an id that matches no location, removeLocation and
updateLocation both resolve and leave the location list exactly unchanged,
entry for entry and in order. -/
theorem claim_C10 :
    ∀ (w : World) (id : String) (updates : LocationUpdate)
      (remoteDel remoteUpd : RemoteResult Bool),
      (∀ l ∈ w.state.locations, l.id ≠ id) →
      (∃ w', removeLocation w id remoteDel = .ok w' ∧
        w'.state.locations = w.state.locations) ∧
      (∃ w2, updateLocation w id updates remoteUpd = .ok w2 ∧
        w2.state.locations = w.state.locations) := by
  intro w id updates remoteDel remoteUpd h
  have hfilter : w.state.locations.filter (fun l => l.id != id) = w.state.locations :=
    List.filter_eq_self.mpr fun l hl => bne_iff_ne.mpr (h l hl)
  have hmap : w.state.locations.map
      (fun l => if l.id == id then applyUpdate l updates else l) = w.state.locations :=
    map_id_of_eq fun l hl => by
      rw [if_neg (by simp only [beq_iff_eq]; exact h l hl)]
  constructor
  · cases remoteDel <;> exact ⟨_, rfl, hfilter⟩
  · cases remoteUpd <;> exact ⟨_, rfl, hmap⟩

/-- Claim C10 witness: a one-location world and the unknown id zzz. -/
theorem claim_C10_witness :
    (∀ l ∈ singleWorld.state.locations, l.id ≠ "zzz") ∧
    ((∃ w', removeLocation singleWorld "zzz" (RemoteResult.ok true) = .ok w' ∧
        w'.state.locations = singleWorld.state.locations) ∧
      (∃ w2, updateLocation singleWorld "zzz" {} (RemoteResult.ok true) = .ok w2 ∧
        w2.state.locations = singleWorld.state.locations)) :=
  ⟨by decide,
    claim_C10 singleWorld "zzz" {} (RemoteResult.ok true) (RemoteResult.ok true) (by decide)⟩

/-- Claim C6: in an all-pairs fetchDrivingRoutes batch, a pair whose
enrichment call fails (rejection, bad response, or missing routes) stays at
its direct-distance-only record with all driving fields absent, without
aborting the batch; a pair whose call returns a route carries the converted
driving distance, the duration and the geometry; and the settled list
replaces the distances state wholesale while the rest of the manager state
is untouched. -/
theorem claim_C6 :
    ∀ (w : World) (oc : Nat → RouteFetchResult),
      2 ≤ w.state.locations.length →
      ∃ w', fetchDrivingRoutes w none none oc = .ok w' ∧
        w'.state.distances = enrichAll oc 0 (calculateAllDirectDistances w.state.locations) ∧
        w'.state.locations = w.state.locations ∧
        w'.state.categories = w.state.categories ∧
        w'.state.isLoading = w.state.isLoading ∧
        w'.locationStore = w.locationStore ∧
        w'.categoryStore = w.categoryStore ∧
        w'.state.distances.length = (calculateAllDirectDistances w.state.locations).length ∧
        ∀ k, k < (calculateAllDirectDistances w.state.locations).length →
          (routeFailed (oc k) →
            w'.state.distances.getD k default =
              (calculateAllDirectDistances w.state.locations).getD k default ∧
            directOnly (w'.state.distances.getD k default)) ∧
          ∀ dm du g, oc k = .route dm du g →
            w'.state.distances.getD k default =
              { (calculateAllDirectDistances w.state.locations).getD k default with
                drivingDistance := some (dm / 1000)
                drivingDuration := some du
                routeGeometry := some g } := by
  intro w oc h2
  have hfetch : fetchDrivingRoutes w none none oc =
      .ok { w with state := { w.state with
        distances := enrichAll oc 0 (calculateAllDirectDistances w.state.locations) } } := by
    unfold fetchDrivingRoutes
    rw [if_neg (by omega)]
    rfl
  refine ⟨_, hfetch, rfl, rfl, rfl, rfl, rfl, rfl, enrichAll_length oc 0 _, ?_⟩
  intro k hk
  have hmem : (calculateAllDirectDistances w.state.locations).getD k default ∈
      calculateAllDirectDistances w.state.locations := by
    rw [List.getD_eq_getElem _ _ hk]
    exact List.getElem_mem hk
  have hbase := calc_mem_directOnly hmem
  have hgetD : (enrichAll oc 0 (calculateAllDirectDistances w.state.locations)).getD k default =
      enrichPair ((calculateAllDirectDistances w.state.locations).getD k default) (oc k) := by
    have h := enrichAll_getD oc 0 k _ hk
    rwa [zero_add] at h
  constructor
  · intro hfail
    constructor
    · show (enrichAll oc 0 (calculateAllDirectDistances w.state.locations)).getD k default = _
      rw [hgetD, enrichPair_failed hfail]
    · show directOnly
        ((enrichAll oc 0 (calculateAllDirectDistances w.state.locations)).getD k default)
      rw [hgetD, enrichPair_failed hfail]
      exact hbase
  · intro dm du g hr
    show (enrichAll oc 0 (calculateAllDirectDistances w.state.locations)).getD k default = _
    rw [hgetD, hr]
    rfl

/-- Claim C6 witness: three locations, the first pair call rejecting and the
others returning routes. -/
theorem claim_C6_witness :
    2 ≤ batchWorld.state.locations.length ∧
    ∃ w', fetchDrivingRoutes batchWorld none none batchOutcomes = .ok w' ∧
      w'.state.distances =
        enrichAll batchOutcomes 0 (calculateAllDirectDistances batchWorld.state.locations) :=
  ⟨by decide, by
    rcases claim_C6 batchWorld batchOutcomes (by decide) with ⟨w', hw, hd, _⟩
    exact ⟨w', hw, hd⟩⟩

/-- Claim C7 (amended): fetchDrivingRoutes is a no-op that leaves the whole
state unchanged when fewer than two locations exist, and when fromId and
toId are both given as truthy (nonempty) strings and at least one of them
resolves to no location.  As originally stated the claim fails when a given
id is the empty string, which JavaScript treats as not given: see the
counterexample. -/
theorem claim_C7 :
    ∀ (w : World) (fromId toId : Option String) (oc : Nat → RouteFetchResult),
      (w.state.locations.length < 2 → fetchDrivingRoutes w fromId toId oc = .ok w) ∧
      (truthyOpt fromId = true → truthyOpt toId = true →
        (w.state.locations.find? (fun l => some l.id == fromId) = none ∨
          w.state.locations.find? (fun l => some l.id == toId) = none) →
        fetchDrivingRoutes w fromId toId oc = .ok w) := by
  intro w fromId toId oc
  constructor
  · intro h
    unfold fetchDrivingRoutes
    rw [if_pos h]
    rfl
  · intro h1 h2 h3
    unfold fetchDrivingRoutes
    by_cases hlen : w.state.locations.length < 2
    · rw [if_pos hlen]
      rfl
    · rw [if_neg hlen, if_pos (by rw [h1, h2]; rfl)]
      rcases h3 with h | h
      · rw [h]
        cases ht : w.state.locations.find? (fun l => some l.id == toId) <;> rfl
      · rw [h]
        cases hf : w.state.locations.find? (fun l => some l.id == fromId) <;> rfl

/-- Claim C7 witness: once with an empty world, once with two locations and
an unknown truthy toId. -/
theorem claim_C7_witness :
    (initWorld.state.locations.length < 2 ∧
      fetchDrivingRoutes initWorld none none noRoutesOutcomes = .ok initWorld) ∧
    (truthyOpt (some "a") = true ∧ truthyOpt (some "zzz") = true ∧
      pairWorld.state.locations.find? (fun l => some l.id == some "zzz") = none ∧
      fetchDrivingRoutes pairWorld (some "a") (some "zzz") noRoutesOutcomes = .ok pairWorld) :=
  ⟨⟨by decide, (claim_C7 initWorld none none noRoutesOutcomes).1 (by decide)⟩,
    by decide, by decide, by decide,
    (claim_C7 pairWorld (some "a") (some "zzz") noRoutesOutcomes).2 (by decide) (by decide)
      (Or.inr (by decide))⟩

/-- Claim C7 counterexample: with two locations and previously enriched
distances, a call whose fromId is given as the empty string (resolving to no
location) and whose toId is an existing id is not a no-op: the empty string
is falsy, so the call falls through to the all-pairs branch and replaces the
distances state, discarding the previous enrichment. -/
theorem claim_C7_counterexample :
    enrichedWorld.state.locations.find? (fun l => some l.id == some "") = none ∧
    fetchDrivingRoutes enrichedWorld (some "") (some "a") allFailOutcomes ≠
      .ok enrichedWorld := by
  constructor
  · decide
  · have heq : fetchDrivingRoutes enrichedWorld (some "") (some "a") allFailOutcomes =
        .ok enrichedWorldAfter := rfl
    rw [heq]
    intro hcontra
    have h2 : enrichedWorldAfter = enrichedWorld := Except.ok.inj hcontra
    have h3 := congrArg (fun x => x.state.distances.map fun d => d.drivingDistance) h2
    simp [enrichedWorldAfter, enrichedWorld, mkDistanceInfo] at h3

end TripPlanner
